import Mathlib

/-!
Verification of the template resolution & materialization pipeline of
`dongjak-templates/project-creator`.

The TypeScript sources are shallowly embedded: JavaScript values that may be
`undefined` become `Option`, JavaScript truthiness tests become explicit
Boolean functions, and the file system / git side effects of a stage become
explicit state records.  Every definition is transcribed from the named
source function; the one definition written from the specification's own
words (`specCondMatches`) is clearly marked as such and is only used to
compare the spec's matching semantics with the code's.
-/

namespace ProjectCreator

/-! ## JavaScript string `includes` (substring test), used by `updateRequirements` -/

/-- `needle` is a leading segment of `hay` (character lists). -/
def leadSeg : List Char → List Char → Bool
  | [], _ => true
  | _ :: _, [] => false
  | a :: ns, b :: hs => a == b && leadSeg ns hs

/-- `needle` occurs as a contiguous run somewhere in `hay`. -/
def hasRun (needle : List Char) : List Char → Bool
  | [] => needle.isEmpty
  | c :: rest => leadSeg needle (c :: rest) || hasRun needle rest

/-- JavaScript `hay.includes(sub)`. -/
def jsIncludes (hay sub : String) : Bool := hasRun sub.toList hay.toList

/-- Split a character list at every newline (JavaScript `split('\n')`):
the result is never empty, and empty segments are preserved. -/
def splitLinesChars : List Char → List (List Char)
  | [] => [[]]
  | c :: rest =>
    if c = '\n' then [] :: splitLinesChars rest
    else
      match splitLinesChars rest with
      | [] => [[c]]
      | l :: ls => (c :: l) :: ls

/-- JavaScript `s.split('\n')`. -/
def splitLines (s : String) : List String :=
  (splitLinesChars s.toList).map fun cs => String.mk cs

/-! ## Repository resolver (`PythonApiTemplate.getTemplateRepo`)

A condition entry of `templates.json` for the `python-api` template.  A field
the JSON entry omits is `none`; `repo` is always present. -/

structure CondEntry where
  web_framework : Option String := none
  orm : Option Bool := none
  orm_framework : Option String := none
  repo : String
deriving DecidableEq

/-- Params of `PythonApiTemplate`, as JavaScript runtime values: a key that is
absent or `undefined` is falsy, which for the Boolean keys we model directly as
`false` and for the string keys as `none`. -/
structure ApiParams where
  orm : Bool := false
  orm_framework : Option String := none
  web_framework : Bool := false
  web_framework_choice : Option String := none
  use_alembic : Bool := false
  includeAliSms : Bool := false
  includeAliOss : Bool := false
deriving DecidableEq

/-- JavaScript truthiness of an optional string: `undefined` and `""` are falsy. -/
def strFalsy : Option String → Bool
  | none => true
  | some s => s == ""

/-- JavaScript truthiness of an optional Boolean: `undefined` and `false` are falsy. -/
def boolFalsy : Option Bool → Bool
  | none => true
  | some b => !b

/-- The loop guard of `PythonApiTemplate.getTemplateRepo`:
`(!condition.web_framework || condition.web_framework === params.web_framework_choice) &&
 (!condition.orm || condition.orm === params.orm) &&
 (!condition.orm_framework || condition.orm_framework === params.orm_framework)`. -/
def condMatches (c : CondEntry) (p : ApiParams) : Bool :=
  (strFalsy c.web_framework || c.web_framework == some_of p.web_framework_choice) &&
  (boolFalsy c.orm || c.orm == some p.orm) &&
  (strFalsy c.orm_framework || c.orm_framework == some_of p.orm_framework)
where
  /-- identity helper so that `==` compares the two `Option String`s directly -/
  some_of (o : Option String) : Option String := o

/-- The `for … return condition.repo; … return templateConfig.default` loop of
`PythonApiTemplate.getTemplateRepo`.  `dflt` is `templateConfig.default`, which
is `none` when the JSON table has no `default` key (the returned value is then
JavaScript `undefined`, i.e. `none`). -/
def resolveRepo : List CondEntry → Option String → ApiParams → Option String
  | [], dflt, _ => dflt
  | c :: rest, dflt, p =>
    if condMatches c p then some c.repo else resolveRepo rest dflt p

/-- Matching as the specification words it ("an entry matches iff, for every
predicate field it defines, the corresponding `params` field equals the
predicate value; fields the entry omits always match").  Written from the spec,
not from the code, to be compared with `condMatches`. -/
def specCondMatches (c : CondEntry) (p : ApiParams) : Bool :=
  (match c.web_framework with
   | none => true
   | some s => p.web_framework_choice == some s) &&
  (match c.orm with
   | none => true
   | some b => b == p.orm) &&
  (match c.orm_framework with
   | none => true
   | some s => p.orm_framework == some s)

/-! ## Repository resolver of `PythonWebTemplate.getTemplateRepo`
(same loop, over the two predicate fields of the `python-web` table). -/

structure WebCondEntry where
  web_framework_choice : Option String := none
  orm_framework : Option String := none
  repo : String
deriving DecidableEq

structure WebParams where
  orm_framework : Option String := none
  web_framework_choice : Option String := none
  use_alembic : Bool := false
  includeAliSms : Bool := false
  includeAliOss : Bool := false
deriving DecidableEq

/-- Loop guard of `PythonWebTemplate.getTemplateRepo`. -/
def webCondMatches (c : WebCondEntry) (p : WebParams) : Bool :=
  (strFalsy c.web_framework_choice ||
    c.web_framework_choice == webSome p.web_framework_choice) &&
  (strFalsy c.orm_framework || c.orm_framework == webSome p.orm_framework)
where
  webSome (o : Option String) : Option String := o

/-- `PythonWebTemplate.getTemplateRepo`: first matching entry's repo, else the
table's `default` (which is JavaScript `undefined`, i.e. `none`, when the table
has no `default` key). -/
def resolveRepoWeb : List WebCondEntry → Option String → WebParams → Option String
  | [], dflt, _ => dflt
  | c :: rest, dflt, p =>
    if webCondMatches c p then some c.repo else resolveRepoWeb rest dflt p

/-! ## Helper lemmas about the resolvers -/

theorem resolveRepo_eq_default_iff (conds : List CondEntry) (dflt : Option String)
    (p : ApiParams)
    (halias : ∀ c ∈ conds, condMatches c p = true → some c.repo ≠ dflt) :
    resolveRepo conds dflt p = dflt ↔ ∀ c ∈ conds, condMatches c p = false := by
  induction conds with
  | nil => simp [resolveRepo]
  | cons c rest ih =>
    by_cases hc : condMatches c p = true
    · simp only [resolveRepo, hc, if_true]
      constructor
      · intro h
        exact absurd h (halias c (by simp) hc)
      · intro h
        exact absurd hc (by simp [h c (by simp)])
    · have hc' : condMatches c p = false := by
        cases h : condMatches c p with
        | true => exact absurd h hc
        | false => rfl
      simp only [resolveRepo, hc', Bool.false_eq_true, if_false]
      rw [ih (fun c' hm => halias c' (by simp [hm]))]
      constructor
      · intro h c' hm
        rcases List.mem_cons.mp hm with h1 | h2
        · exact h1 ▸ hc'
        · exact h c' h2
      · intro h c' hm
        exact h c' (by simp [hm])

theorem resolveRepo_first_match (pre : List CondEntry) (c : CondEntry)
    (rest : List CondEntry) (dflt : Option String) (p : ApiParams)
    (hpre : ∀ c' ∈ pre, condMatches c' p = false) (hc : condMatches c p = true) :
    resolveRepo (pre ++ c :: rest) dflt p = some c.repo := by
  induction pre with
  | nil => simp [resolveRepo, hc]
  | cons a pre' ih =>
    have ha : condMatches a p = false := hpre a (by simp)
    simp only [List.cons_append, resolveRepo, ha, Bool.false_eq_true, if_false]
    exact ih (fun c' hm => hpre c' (by simp [hm]))

theorem resolveRepoWeb_no_match (conds : List WebCondEntry) (p : WebParams)
    (h : ∀ c ∈ conds, webCondMatches c p = false) :
    resolveRepoWeb conds none p = none := by
  induction conds with
  | nil => rfl
  | cons c rest ih =>
    have hc : webCondMatches c p = false := h c (by simp)
    simp only [resolveRepoWeb, hc, Bool.false_eq_true, if_false]
    exact ih (fun c' hm => h c' (by simp [hm]))

/-! ## Concrete resolver inputs used by the claims -/

/-- A table whose single entry defines the predicate field `orm` with value
`false`: the spec's matching semantics says the entry does not match params
with `orm = true`, but JavaScript truthiness (`!condition.orm`) turns the
defined-but-falsy field into a wildcard. -/
def falsyOrmEntry : CondEntry := { orm := some false, repo := "R1" }

/-- Params with `orm = true` (all other keys absent). -/
def apiParamsOrmTrue : ApiParams := { orm := true }

/-- The parameter set of end-to-end scenario A. -/
def scenarioAParams : ApiParams :=
  { orm := true, orm_framework := some "sqlmodel",
    web_framework_choice := some "fastapi" }

/-- The condition entry of end-to-end scenario A. -/
def scenarioAEntry : CondEntry :=
  { web_framework := some "fastapi", orm := some true,
    orm_framework := some "sqlmodel", repo := "R1" }

/-- A `python-web` entry conditioned on flask, not matching fastapi params. -/
def webFlaskEntry : WebCondEntry := { web_framework_choice := some "flask", repo := "R1" }

/-- `python-web` params choosing fastapi. -/
def webFastapiParams : WebParams := { web_framework_choice := some "fastapi" }

end ProjectCreator

namespace ProjectCreator

/-! ## Claim C1 -/

/-- C1, counterexample: on the table whose single entry defines `orm := false`
and params with `orm = true`, no entry matches in the spec's sense (a defined
field must equal the params field), so the claim demands the `default`
location `R0`; the code's resolver nevertheless returns the entry's `R1`,
because JavaScript `!condition.orm` treats the defined-but-falsy predicate as
a wildcard. -/
theorem C1_counterexample :
    (∀ c ∈ [falsyOrmEntry], specCondMatches c apiParamsOrmTrue = false) ∧
    resolveRepo [falsyOrmEntry] (some "R0") apiParamsOrmTrue = some "R1" ∧
    some "R1" ≠ some "R0" := by
  refine ⟨by decide, by decide, by decide⟩

/-- C1, amended: the resolver returns the `default` location iff no entry
matches under the code's truthiness semantics (`condMatches`: a predicate
field that is absent, `false`, or the empty string is a wildcard; a
defined-and-truthy field must equal the params field), provided no matching
entry's repo is the same string as the default (otherwise the two return
paths are indistinguishable by value). -/
theorem C1_resolver_default_iff (cfg : List CondEntry) (dflt : Option String)
    (p : ApiParams)
    (halias : ∀ c ∈ cfg, condMatches c p = true → some c.repo ≠ dflt) :
    resolveRepo cfg dflt p = dflt ↔ ∀ c ∈ cfg, condMatches c p = false :=
  resolveRepo_eq_default_iff cfg dflt p halias

/-- C1, witness: the amended theorem applied to the one-entry falsy-`orm`
table, whose entry does match in truthiness semantics, so the resolver result
differs from the default. -/
theorem C1_resolver_default_iff_w :
    resolveRepo [falsyOrmEntry] (some "R0") apiParamsOrmTrue = some "R0" ↔
      ∀ c ∈ [falsyOrmEntry], condMatches c apiParamsOrmTrue = false :=
  C1_resolver_default_iff [falsyOrmEntry] (some "R0") apiParamsOrmTrue (by decide)

/-! ## Claim C2 -/

/-- C2: first-match-wins.  Whenever the table splits as `pre ++ c :: rest`
with nothing in `pre` matching and `c` matching, the resolver returns `c`'s
repo — in particular it never returns a later matching entry of `rest`.
Conjoined: end-to-end scenario A, where the entry
`{web_framework: 'fastapi', orm: true, orm_framework: 'sqlmodel', repo: 'R1'}`
precedes `default: 'R0'` and the resolver returns `'R1'`. -/
theorem C2_first_match_wins :
    (∀ (pre : List CondEntry) (c : CondEntry) (rest : List CondEntry)
       (dflt : Option String) (p : ApiParams),
       (∀ c' ∈ pre, condMatches c' p = false) → condMatches c p = true →
       resolveRepo (pre ++ c :: rest) dflt p = some c.repo) ∧
    resolveRepo [scenarioAEntry] (some "R0") scenarioAParams = some "R1" := by
  exact ⟨fun pre c rest dflt p hpre hc => resolveRepo_first_match pre c rest dflt p hpre hc,
    by decide⟩

/-- C2, witness: the first-match-wins part applied to a concrete overlapping
table — the unconditioned entry `RY` and the later unconditioned entry `RZ`
both match, and the resolver returns the earlier `RY`. -/
theorem C2_first_match_wins_w :
    resolveRepo
      ([{ web_framework := some "flask", repo := "RX" }] ++
        { repo := "RY" } :: [{ repo := "RZ" }])
      (some "R0") scenarioAParams = some "RY" :=
  C2_first_match_wins.1 [{ web_framework := some "flask", repo := "RX" }]
    { repo := "RY" } [{ repo := "RZ" }] (some "R0") scenarioAParams
    (by decide) (by decide)

/-! ## Claim C5 -/

/-- C5, counterexample: on a `python-web` table with no `default` key and a
single entry conditioned on flask, with params choosing fastapi, no entry
matches, and `PythonWebTemplate.getTemplateRepo` silently returns the
JavaScript `undefined` default (`none`) — it raises no error at resolution
(the embedded function is total, exactly like the source, which has no throw
path). -/
theorem C5_counterexample :
    webCondMatches webFlaskEntry webFastapiParams = false ∧
    resolveRepoWeb [webFlaskEntry] none webFastapiParams = none := by
  refine ⟨by decide, by decide⟩

/-- C5, amended: for every table with no `default` key, if no entry matches
the params then resolution silently returns the undefined location (`none`);
the pipeline only aborts later, when the fetch stage fails to clone the
undefined location. -/
theorem C5_no_default_returns_undefined (conds : List WebCondEntry) (p : WebParams)
    (h : ∀ c ∈ conds, webCondMatches c p = false) :
    resolveRepoWeb conds none p = none :=
  resolveRepoWeb_no_match conds p h

/-- C5, witness: the amended theorem at the concrete flask-only table and
fastapi params. -/
theorem C5_no_default_returns_undefined_w :
    resolveRepoWeb [webFlaskEntry] none webFastapiParams = none :=
  C5_no_default_returns_undefined [webFlaskEntry] webFastapiParams (by decide)

/-! ## Stage order of each template's `initialize` (claim C3)

Each `initialize` method is a straight-line sequence of awaited stage calls;
we transcribe the sequence of pipeline stages it performs, in call order. -/

inductive Stage where
  /-- `git clone <repo> <targetDir>` -/
  | fetch
  /-- `fs.remove(path.join(targetDir, '.git'))` right after the clone -/
  | stripVcs
  /-- `updateProjectName` (pyproject.toml / setup.py rewrite) -/
  | updateName
  /-- feature-gated subtree deletion (`configureProject` removals) -/
  | prune
  /-- `updateRequirements` (manifest editing) -/
  | manifest
  /-- `renderTemplateFiles` (variable rendering) -/
  | render
  /-- `applyPatches` -/
  | patch
  /-- `processDockerComposeFile` (service removal) -/
  | composeEdit
  /-- `generateEnvFile` -/
  | envGen
deriving DecidableEq

/-- Stage call order of `PythonWebTemplate.initialize`: clone, remove `.git`,
`configureProject` (pruning only), `renderTemplateFiles`, `applyPatches`. -/
def pythonWebStages : List Stage :=
  [.fetch, .stripVcs, .prune, .render, .patch]

/-- Stage call order of `PythonApiTemplate.initialize`: clone, remove `.git`,
`updateProjectName`, `configureProject` (pruning then `updateRequirements`),
`renderTemplateFiles`, `applyPatches`. -/
def pythonApiStages : List Stage :=
  [.fetch, .stripVcs, .updateName, .prune, .manifest, .render, .patch]

/-- Stage call order of `PythonLibraryTemplate.initialize`: clone, remove
`.git`, `applyPatches`, `renderTemplateFiles`. -/
def pythonLibraryStages : List Stage :=
  [.fetch, .stripVcs, .patch, .render]

/-- Stage call order of `RefineAdminTemplate.initialize`: clone, remove
`.git`, `renderTemplateFiles`, `applyPatches`. -/
def refineAdminStages : List Stage :=
  [.fetch, .stripVcs, .render, .patch]

/-- Stage call order of `DockerComposeTemplate.initialize`: clone, remove
`.git`, `applyPatches`, `processDockerComposeFile`, `generateEnvFile`,
`renderTemplateFiles`. -/
def dockerComposeStages : List Stage :=
  [.fetch, .stripVcs, .patch, .composeEdit, .envGen, .render]

/-- Index of the first occurrence of stage `s` in a stage list. -/
def stageIdx (s : Stage) (l : List Stage) : Nat := l.findIdx (· == s)

/-! ## Claim C3 -/

/-- C3, counterexample: in `PythonWebTemplate.initialize` both stages occur,
and the variable-rendering stage is called before the patch-application
stage, so it is not the case that patching completes before rendering begins
in every template's pipeline. -/
theorem C3_counterexample :
    Stage.render ∈ pythonWebStages ∧ Stage.patch ∈ pythonWebStages ∧
    stageIdx Stage.render pythonWebStages < stageIdx Stage.patch pythonWebStages := by
  refine ⟨by decide, by decide, by decide⟩

/-- C3, amended: the patch-application stage precedes the variable-rendering
stage only in `PythonLibraryTemplate` and `DockerComposeTemplate`; in
`PythonWebTemplate`, `PythonApiTemplate` and `RefineAdminTemplate` the
rendering stage runs first and `applyPatches` is called after it. -/
theorem C3_stage_order :
    stageIdx Stage.patch pythonLibraryStages < stageIdx Stage.render pythonLibraryStages ∧
    stageIdx Stage.patch dockerComposeStages < stageIdx Stage.render dockerComposeStages ∧
    stageIdx Stage.render pythonWebStages < stageIdx Stage.patch pythonWebStages ∧
    stageIdx Stage.render pythonApiStages < stageIdx Stage.patch pythonApiStages ∧
    stageIdx Stage.render refineAdminStages < stageIdx Stage.patch refineAdminStages ∧
    ∀ l ∈ [pythonWebStages, pythonApiStages, pythonLibraryStages,
           refineAdminStages, dockerComposeStages],
      Stage.render ∈ l ∧ Stage.patch ∈ l := by
  refine ⟨by decide, by decide, by decide, by decide, by decide, by decide⟩

/-! ## Patch applier (claim C4)

`applyPatches` interacts with the file system and git; we embed it as a
function from the relevant file-system facts (patch directory present, the
`git init/add/commit` checkpoint sequence succeeding, individual `git apply`
calls succeeding) to the outcome visible in the target tree. -/

/-- File-system facts a `PythonWebTemplate.applyPatches` run depends on. -/
structure PatchFs where
  /-- `.patches` exists in the fetched tree -/
  patchesDirPresent : Bool
  /-- the `git init; git add .; git commit` checkpoint sequence succeeds -/
  checkpointSucceeds : Bool
  /-- whether a `.git` directory was left behind when the checkpoint sequence
  failed partway (e.g. `git init` succeeded but `git commit` failed) -/
  gitDirAfterFailedCheckpoint : Bool
  /-- `.patches/includeAliSms.patch` exists -/
  aliSmsPatchPresent : Bool
  /-- `.patches/includeAliOss.patch` exists -/
  aliOssPatchPresent : Bool
  /-- `git apply includeAliSms.patch` succeeds -/
  smsApplySucceeds : Bool
  /-- `git apply includeAliOss.patch` succeeds -/
  ossApplySucceeds : Bool
deriving DecidableEq

/-- Final tree state produced by a patch-application run. -/
structure PatchOutcome where
  /-- `.patches` still exists when the stage returns -/
  hasPatchesDir : Bool
  /-- `.git` still exists when the stage returns -/
  hasGitDir : Bool
  /-- the AliSms patch was applied -/
  appliedSms : Bool
  /-- the AliOss patch was applied -/
  appliedOss : Bool
deriving DecidableEq

/-- `PythonWebTemplate.applyPatches` (the `PythonApiTemplate` copy in the
source is identical): no-op when `.patches` is absent; early `return` when
the git checkpoint cannot be created (leaving `.patches`, and whatever `.git`
state the failed sequence left, in place); otherwise each feature patch is
attempted iff its gating flag is set and its file exists, individual
failures are logged and do not abort, and `.patches` and `.git` are removed
at the end. -/
def applyPatchesWeb (includeAliSms includeAliOss : Bool) (fs : PatchFs) : PatchOutcome :=
  if !fs.patchesDirPresent then
    { hasPatchesDir := false, hasGitDir := false,
      appliedSms := false, appliedOss := false }
  else if !fs.checkpointSucceeds then
    { hasPatchesDir := true, hasGitDir := fs.gitDirAfterFailedCheckpoint,
      appliedSms := false, appliedOss := false }
  else
    { hasPatchesDir := false, hasGitDir := false,
      appliedSms := includeAliSms && fs.aliSmsPatchPresent && fs.smsApplySucceeds,
      appliedOss := includeAliOss && fs.aliOssPatchPresent && fs.ossApplySucceeds }

/-- File-system facts a `PythonLibraryTemplate.applyPatches` run depends on. -/
structure LibPatchFs where
  patchesDirPresent : Bool
  checkpointSucceeds : Bool
  gitDirAfterFailedCheckpoint : Bool
  /-- `handlebars.patch` exists in `.patches` -/
  handlebarsPatchPresent : Bool
  /-- `git apply handlebars.patch` succeeds -/
  handlebarsApplySucceeds : Bool
  /-- directory listing of `.patches` -/
  patchFiles : List String
  /-- whether `git apply` succeeds for a given patch file -/
  applySucceeds : String → Bool

/-- Final state of a `PythonLibraryTemplate.applyPatches` run. -/
structure LibPatchOutcome where
  hasPatchesDir : Bool
  hasGitDir : Bool
  /-- feature patch files applied, in directory-enumeration order -/
  appliedFiles : List String
deriving DecidableEq

/-- `PythonLibraryTemplate.applyPatches` (the `DockerComposeTemplate` copy is
identical): `handlebars.patch` is applied first if present; then every other
`*.patch` file in directory order, each failure logged and skipped; finally
`.patches` and `.git` are removed.  Early `return` on a failed checkpoint
leaves `.patches` in place. -/
def applyPatchesLibrary (fs : LibPatchFs) : LibPatchOutcome :=
  if !fs.patchesDirPresent then
    { hasPatchesDir := false, hasGitDir := false, appliedFiles := [] }
  else if !fs.checkpointSucceeds then
    { hasPatchesDir := true, hasGitDir := fs.gitDirAfterFailedCheckpoint,
      appliedFiles := [] }
  else
    { hasPatchesDir := false, hasGitDir := false,
      appliedFiles :=
        (if fs.handlebarsPatchPresent && fs.handlebarsApplySucceeds
         then ["handlebars.patch"] else []) ++
        (fs.patchFiles.filter fun f =>
          f != "handlebars.patch" && String.endsWith f ".patch" && fs.applySucceeds f) }

/-! ## Claim C4 -/

/-- C4, counterexample: a materialization that enters `applyPatches` with
`.patches` present but whose git checkpoint creation fails returns early with
`.patches` still present in the tree (and, here, a partially-created `.git`
left behind as well) — so the removal is not unconditional. -/
theorem C4_counterexample :
    (applyPatchesWeb true true
      { patchesDirPresent := true, checkpointSucceeds := false,
        gitDirAfterFailedCheckpoint := true, aliSmsPatchPresent := true,
        aliOssPatchPresent := true, smsApplySucceeds := true,
        ossApplySucceeds := true }).hasPatchesDir = true := by
  decide

/-- C4, amended: whenever the stage enters with `.patches` present and the
transient git checkpoint is successfully created, `.patches` and `.git` are
removed before the stage returns, regardless of which individual patches were
gated off, missing, succeeded or failed — in both `applyPatches`
implementations (`PythonWebTemplate`/`PythonApiTemplate` and
`PythonLibraryTemplate`/`DockerComposeTemplate`). -/
theorem C4_cleanup_after_checkpoint :
    (∀ (sms oss : Bool) (fs : PatchFs),
      fs.patchesDirPresent = true → fs.checkpointSucceeds = true →
      (applyPatchesWeb sms oss fs).hasPatchesDir = false ∧
      (applyPatchesWeb sms oss fs).hasGitDir = false) ∧
    (∀ fs : LibPatchFs,
      fs.patchesDirPresent = true → fs.checkpointSucceeds = true →
      (applyPatchesLibrary fs).hasPatchesDir = false ∧
      (applyPatchesLibrary fs).hasGitDir = false) := by
  constructor
  · intro sms oss fs h1 h2
    simp [applyPatchesWeb, h1, h2]
  · intro fs h1 h2
    simp [applyPatchesLibrary, h1, h2]

/-- C4, witness: the amended theorem at a concrete run in which one patch is
gated on but missing and the other present patch fails to apply — cleanup
still happens. -/
theorem C4_cleanup_after_checkpoint_w :
    (applyPatchesWeb true true
      { patchesDirPresent := true, checkpointSucceeds := true,
        gitDirAfterFailedCheckpoint := false, aliSmsPatchPresent := false,
        aliOssPatchPresent := true, smsApplySucceeds := true,
        ossApplySucceeds := false }).hasPatchesDir = false ∧
    (applyPatchesWeb true true
      { patchesDirPresent := true, checkpointSucceeds := true,
        gitDirAfterFailedCheckpoint := false, aliSmsPatchPresent := false,
        aliOssPatchPresent := true, smsApplySucceeds := true,
        ossApplySucceeds := false }).hasGitDir = false :=
  C4_cleanup_after_checkpoint.1 true true
    { patchesDirPresent := true, checkpointSucceeds := true,
      gitDirAfterFailedCheckpoint := false, aliSmsPatchPresent := false,
      aliOssPatchPresent := true, smsApplySucceeds := true,
      ossApplySucceeds := false } rfl rfl

/-! ## Manifest editor (`PythonApiTemplate.updateRequirements`, claims C6/C7)

The loop body of `updateRequirements` maps each input line to the lines it
contributes to `newLines`: nothing when a disabled feature's dependency
substring matches, the pinned replacement line(s) for the mutually-exclusive
framework choice, otherwise the line itself. -/

/-- Lines contributed by one input line, following the source's guard order:
sqlmodel/sqlalchemy when `!orm`, alembic when `!use_alembic`, the
flask-for-fastapi and fastapi-for-flask replacements when `web_framework` is
set, aliyun-python-sdk-core when `!includeAliSms`, oss2 when
`!includeAliOss`, else pass-through. -/
def emitLine (p : ApiParams) (line : String) : List String :=
  if !p.orm && (jsIncludes line "sqlmodel" || jsIncludes line "sqlalchemy") then
    []
  else if !p.use_alembic && jsIncludes line "alembic" then
    []
  else if p.web_framework && p.web_framework_choice == some "flask" &&
      jsIncludes line "fastapi" then
    ["flask==2.3.3"]
  else if p.web_framework && p.web_framework_choice == some "fastapi" &&
      jsIncludes line "flask" then
    ["fastapi==0.103.1", "uvicorn==0.23.2"]
  else if !p.includeAliSms && jsIncludes line "aliyun-python-sdk-core" then
    []
  else if !p.includeAliOss && jsIncludes line "oss2" then
    []
  else
    [line]

/-- The `for (const line of lines) { … newLines.push(…) }` loop of
`updateRequirements`. -/
def processRequirementLines (p : ApiParams) : List String → List String
  | [] => []
  | line :: rest => emitLine p line ++ processRequirementLines p rest

/-- `updateRequirements` at file level: absent `requirements.txt` (`none`) is
a no-op; otherwise the file is rewritten as the processed lines rejoined with
newlines. -/
def updateRequirementsFile (p : ApiParams) : Option String → Option String
  | none => none
  | some content =>
      some (String.intercalate "\n" (processRequirementLines p (splitLines content)))

/-- A line the editor was not instructed to touch: it matches no
disabled-feature dependency substring and is not the target of the
mutually-exclusive framework replacement. -/
def keepLine (p : ApiParams) (line : String) : Bool :=
  !(!p.orm && (jsIncludes line "sqlmodel" || jsIncludes line "sqlalchemy")) &&
  !(!p.use_alembic && jsIncludes line "alembic") &&
  !(p.web_framework && p.web_framework_choice == some "flask" &&
      jsIncludes line "fastapi") &&
  !(p.web_framework && p.web_framework_choice == some "fastapi" &&
      jsIncludes line "flask") &&
  !(!p.includeAliSms && jsIncludes line "aliyun-python-sdk-core") &&
  !(!p.includeAliOss && jsIncludes line "oss2")

theorem emitLine_of_keep (p : ApiParams) (line : String)
    (h : keepLine p line = true) : emitLine p line = [line] := by
  have h' := h
  simp only [keepLine, Bool.and_eq_true, Bool.not_eq_true'] at h'
  obtain ⟨⟨⟨⟨⟨h1, h2⟩, h3⟩, h4⟩, h5⟩, h6⟩ := h'
  simp only [emitLine, h1, h2, h3, h4, h5, h6, Bool.false_eq_true, if_false]

theorem processRequirementLines_keep_sublist (p : ApiParams) (lines : List String) :
    (lines.filter (keepLine p)).Sublist (processRequirementLines p lines) := by
  induction lines with
  | nil => simp [processRequirementLines]
  | cons line rest ih =>
    by_cases h : keepLine p line = true
    · rw [List.filter_cons_of_pos h, processRequirementLines, emitLine_of_keep p line h]
      exact ih.cons₂ line
    · rw [List.filter_cons_of_neg (by simpa using h), processRequirementLines]
      exact ih.trans (List.sublist_append_right (emitLine p line) _)

/-! ## Claim C6 -/

/-- C6: the manifest editor never drops or reorders an untouched line — the
input lines that match no disabled-feature dependency substring and are not
replacement targets appear unchanged and in their original relative order as
a sublist of the rewritten manifest's lines; and an absent manifest file is a
no-op. -/
theorem C6_manifest_untouched_lines :
    (∀ p : ApiParams, updateRequirementsFile p none = none) ∧
    (∀ (p : ApiParams) (lines : List String),
      (lines.filter (keepLine p)).Sublist (processRequirementLines p lines)) :=
  ⟨fun _ => rfl, processRequirementLines_keep_sublist⟩

/-! ## Claim C7 -/

/-- Scenario B's parameter set, literally: `{web_framework_choice: 'flask',
orm: false}`.  The key `web_framework` is absent, hence falsy at runtime. -/
def scenarioBParams : ApiParams :=
  { orm := false, web_framework_choice := some "flask" }

/-- Scenario B's parameter set completed with `web_framework: true` (a web
framework was chosen). -/
def scenarioBParamsWithWeb : ApiParams :=
  { orm := false, web_framework := true, web_framework_choice := some "flask" }

/-- The manifest lines of scenario B. -/
def scenarioBLines : List String := ["fastapi==x", "sqlalchemy==y"]

/-- C7, counterexample: under scenario B's literal parameter set the
`web_framework` key is absent (falsy), so the flask-for-fastapi replacement
guard `web_framework && web_framework_choice === 'flask' && …` is off: the
editor outputs exactly `fastapi==x` — it drops the sqlalchemy line but emits
no `flask==2.3.3` line, contradicting the claimed output. -/
theorem C7_counterexample :
    processRequirementLines scenarioBParams scenarioBLines = ["fastapi==x"] ∧
    "flask==2.3.3" ∉ processRequirementLines scenarioBParams scenarioBLines := by
  refine ⟨by decide, by decide⟩

/-- C7, amended: with the parameter set completed by `web_framework: true`,
the editor rewrites `fastapi==x\nsqlalchemy==y` to exactly `flask==2.3.3` —
the output contains a `flask==2.3.3` line and no line mentioning
sqlalchemy. -/
theorem C7_scenarioB_with_web :
    updateRequirementsFile scenarioBParamsWithWeb (some "fastapi==x\nsqlalchemy==y") =
      some "flask==2.3.3" ∧
    "flask==2.3.3" ∈ processRequirementLines scenarioBParamsWithWeb scenarioBLines ∧
    (processRequirementLines scenarioBParamsWithWeb scenarioBLines).all
      (fun l => !jsIncludes l "sqlalchemy") = true := by
  refine ⟨by decide, by decide, by decide⟩

/-! ## Variable renderer (`BaseTemplate.renderTemplateFiles`, claim C8)

`renderTemplateFiles` reads a file, renders it with the mustache-style
engine, and writes it back only when the rendered text differs
(`if (content !== renderedContent)`); a render error leaves the file as it
was.  The engine itself is an external library; we model it from the spec's
grammar ("literal text plus `\x7b\x7bvariable\x7d\x7d` substitution"): literal
characters pass through, a `\x7b\x7b…\x7d\x7d` token is replaced by the
context value of the enclosed name (missing names render as the empty
string), and an unterminated token is a render error. -/

/-- The opening/closing brace characters of a template token. -/
def obr : Char := Char.ofNat 123

def cbr : Char := Char.ofNat 125

/-- ASCII whitespace test used to trim a token's variable name. -/
def isWsChar (c : Char) : Bool := c = ' ' || c = '\t' || c = '\n' || c = '\r'

/-- Trim leading and trailing whitespace from a character list. -/
def trimChars (cs : List Char) : List Char :=
  ((cs.dropWhile isWsChar).reverse.dropWhile isWsChar).reverse

/-- Value of a variable in the render context; absent variables render as
the empty string. -/
def ctxLookup (ctx : List (String × String)) (name : List Char) : List Char :=
  match ctx.find? (fun kv => kv.1.toList == trimChars name) with
  | some kv => kv.2.toList
  | none => []

theorem len_dropWhile_le {α : Type} (p : α → Bool) (l : List α) :
    (l.dropWhile p).length ≤ l.length := by
  induction l with
  | nil => simp [List.dropWhile]
  | cons a t ih =>
    rw [List.dropWhile_cons]
    by_cases h : p a = true
    · simp only [h, if_true]
      exact Nat.le_succ_of_le ih
    · simp [h]

/-- Modelled from the spec: the mustache-style render engine (the source
delegates to the external Handlebars library).  Literal text passes through;
`\x7b\x7bname\x7d\x7d` is replaced by the context value of `name`; a token
opened but never closed is a render error (`none`). -/
def renderChars (ctx : List (String × String)) : List Char → Option (List Char)
  | [] => some []
  | [c] => some [c]
  | c₁ :: c₂ :: rest =>
    if c₁ = obr ∧ c₂ = obr then
      match h : rest.dropWhile (fun c => !(c = cbr)) with
      | d₁ :: d₂ :: rest₂ =>
        if d₂ = cbr then
          (renderChars ctx rest₂).map
            (fun t => ctxLookup ctx (rest.takeWhile (fun c => !(c = cbr))) ++ t)
        else none
      | _ => none
    else
      (renderChars ctx (c₂ :: rest)).map (fun t => c₁ :: t)
termination_by l => l.length
decreasing_by
  · have hle := len_dropWhile_le (fun c => !(c = cbr)) rest
    rw [h] at hle
    simp only [List.length_cons] at hle ⊢
    omega
  · simp only [List.length_cons]
    omega

/-- String-level rendering. -/
def renderString (content : String) (ctx : List (String × String)) : Option String :=
  (renderChars ctx content.toList).map fun cs => String.mk cs

/-- The content contains no remaining template token opener. -/
def noTemplateTok (s : String) : Bool := !jsIncludes s "\x7b\x7b"

/-- The per-file body of `renderTemplateFiles`: returns the file's content
after the visit together with whether the file was rewritten.  A render
error (caught `catch`) leaves the file untouched; identical rendered output
skips the write (`if (content !== renderedContent)`). -/
def renderFileStep (content : String) (ctx : List (String × String)) :
    String × Bool :=
  match renderString content ctx with
  | none => (content, false)
  | some r => if r = content then (content, false) else (r, true)

theorem hasRun_cons_false {needle : List Char} {c : Char} {rest : List Char}
    (h : hasRun needle (c :: rest) = false) :
    leadSeg needle (c :: rest) = false ∧ hasRun needle rest = false := by
  have h' := h
  simp only [hasRun, Bool.or_eq_false_iff] at h'
  exact h'

theorem renderChars_of_noTok (ctx : List (String × String)) (l : List Char)
    (h : hasRun [obr, obr] l = false) : renderChars ctx l = some l := by
  induction l with
  | nil => simp [renderChars]
  | cons c₁ t ih =>
    cases t with
    | nil => simp [renderChars]
    | cons c₂ rest =>
      obtain ⟨hlead, hrest⟩ := hasRun_cons_false h
      have hno : ¬(c₁ = obr ∧ c₂ = obr) := by
        intro ⟨h1, h2⟩
        simp [leadSeg, h1, h2] at hlead
      rw [renderChars, if_neg hno, ih hrest]
      rfl

/-! ## Claim C8 -/

/-- C8: rendering is idempotent on finished files — for any content with no
remaining `\x7b\x7b…\x7d\x7d` template tokens, rendering yields byte-identical
output (so a second render with the same context reproduces it exactly), and
the render stage leaves such a file untouched (reports no write). -/
theorem C8_render_idempotent (content : String) (ctx : List (String × String))
    (h : noTemplateTok content = true) :
    renderString content ctx = some content ∧
    renderFileStep content ctx = (content, false) := by
  have hrun : hasRun [obr, obr] content.toList = false := by
    have h' := h
    simp only [noTemplateTok, Bool.not_eq_true'] at h'
    have : ("\x7b\x7b" : String).toList = [obr, obr] := by decide
    rw [jsIncludes, this] at h'
    exact h'
  have hs : renderString content ctx = some content := by
    rw [renderString, renderChars_of_noTok ctx content.toList hrun]
    simp
  refine ⟨hs, ?_⟩
  rw [renderFileStep, hs]
  simp

/-- C8, witness: a concrete token-free file content is rendered to itself and
not rewritten. -/
theorem C8_render_idempotent_w :
    renderString "flask==2.3.3\n" [("projectName", "demo")] = some "flask==2.3.3\n" ∧
    renderFileStep "flask==2.3.3\n" [("projectName", "demo")] = ("flask==2.3.3\n", false) :=
  C8_render_idempotent "flask==2.3.3\n" [("projectName", "demo")] (by decide)

/-! ## Environment-declaration files (`DockerComposeTemplate`, claims C9/C10) -/

/-- `EnvVarInfo` of `DockerComposeTemplate`: `value` is `undefined` (`none`)
until supplied; `comment` is the preceding `#`-comment line's text (the
source always supplies it, possibly as the empty string). -/
structure EnvVarInfo where
  name : String
  value : Option String
  comment : String
deriving DecidableEq

/-- A character the variable-name part of `^([A-Za-z0-9_]+)=(.*)$` accepts. -/
def isEnvNameChar (c : Char) : Bool := c.isAlphanum || c = '_'

/-- Match a trimmed line against `^([A-Za-z0-9_]+)=(.*)$`, returning the
captured name and value. -/
def parseEnvVarLine (cs : List Char) : Option (String × String) :=
  match cs.dropWhile isEnvNameChar with
  | '=' :: rest =>
    if (cs.takeWhile isEnvNameChar).isEmpty then none
    else some (String.mk (cs.takeWhile isEnvNameChar), String.mk rest)
  | _ => none

/-- The line loop of `DockerComposeTemplate.readEnvFile`: a `#` line (after
trimming) becomes the pending comment; a `KEY=value` line emits an entry
whose value is `undefined` when empty (`value || undefined`) and resets the
pending comment; any other line leaves the pending comment untouched. -/
def readEnvLines : List String → String → List EnvVarInfo
  | [], _ => []
  | line :: rest, currentComment =>
    match trimChars line.toList with
    | '#' :: commentRest => readEnvLines rest (String.mk (trimChars commentRest))
    | l =>
      match parseEnvVarLine l with
      | some (name, value) =>
        ⟨name, if value = "" then none else some value, currentComment⟩ ::
          readEnvLines rest ""
      | none => readEnvLines rest currentComment

/-- `DockerComposeTemplate.readEnvFile` on the file's text content. -/
def readEnvFileContent (content : String) : List EnvVarInfo :=
  readEnvLines (splitLines content) ""

/-- The record pushed for a prompted variable: `{name, value: answers[name],
comment}` (the prompt returns a string, so the value is always defined). -/
def fillEnvVar (answers : String → String) (i : EnvVarInfo) : EnvVarInfo :=
  ⟨i.name, some (answers i.name), i.comment⟩

/-- The single pass of `promptForMissingEnvVars` that pushes already-valued
variables onto `result` and collects the rest into `envVarsToAsk`, both in
input order. -/
def splitEnvVars : List EnvVarInfo → List EnvVarInfo × List EnvVarInfo
  | [] => ([], [])
  | i :: rest =>
    let (res, ask) := splitEnvVars rest
    if i.value.isSome then (i :: res, ask) else (res, i :: ask)

/-- `DockerComposeTemplate.promptForMissingEnvVars`, with the interactive
prompt abstracted as the answer function `answers`: the already-valued
variables, then the prompted ones with their answers filled in. -/
def promptForMissingEnvVars (envs : List EnvVarInfo) (answers : String → String) :
    List EnvVarInfo :=
  (splitEnvVars envs).1 ++ (splitEnvVars envs).2.map (fillEnvVar answers)

/-- `DockerComposeTemplate.generateEnvFile`: fixed header, then for every
variable with a defined value its comment line (when the comment is a
truthy, i.e. nonempty, string) followed by `name=value`. -/
def generateEnvFileContent (envs : List EnvVarInfo) : String :=
  envs.foldl
    (fun acc i =>
      match i.value with
      | some v =>
        acc ++ (if i.comment = "" then "" else "# " ++ i.comment ++ "\n") ++
          i.name ++ "=" ++ v ++ "\n"
      | none => acc)
    "# 环境变量配置文件\n# 此文件由项目生成器自动生成\n\n"

theorem splitEnvVars_eq_filter (envs : List EnvVarInfo) :
    splitEnvVars envs =
      (envs.filter (fun i => i.value.isSome),
       envs.filter (fun i => !i.value.isSome)) := by
  induction envs with
  | nil => rfl
  | cons i rest ih =>
    by_cases h : i.value.isSome = true
    · have h' : i.value ≠ none := by
        cases hv : i.value with
        | none => rw [hv] at h; simp at h
        | some v => simp
      simp [splitEnvVars, ih, h, h', List.filter_cons]
    · have h' : i.value = none := by
        cases hv : i.value with
        | none => rfl
        | some v => rw [hv] at h; simp at h
      simp [splitEnvVars, ih, h, h', List.filter_cons]

/-! ## Claim C9 -/

/-- C9: parsing the environment file `# API key\nAPI_KEY=` yields exactly one
`EnvVarInfo` with name `API_KEY`, comment `API key`, and undefined value;
and after the parameter-collection prompt pass, every variable in the
completed list has a defined value (so the generated `.env` only ever sees
filled variables). -/
theorem C9_env_scenario :
    readEnvFileContent "# API key\nAPI_KEY=" = [⟨"API_KEY", none, "API key"⟩] ∧
    ∀ (envs : List EnvVarInfo) (answers : String → String),
      (promptForMissingEnvVars envs answers).all (fun i => i.value.isSome) = true := by
  refine ⟨by decide, ?_⟩
  intro envs answers
  simp only [promptForMissingEnvVars, splitEnvVars_eq_filter, List.all_append,
    List.all_map, Bool.and_eq_true, List.all_eq_true]
  constructor
  · intro i hi
    exact (List.mem_filter.mp hi).2
  · intro i _
    rfl

/-! ## Claim C10 -/

/-- Parsed list in which a file-supplied value (`B_VAR`) appears after a
variable without one (`A_VAR`). -/
def demoEnvVars : List EnvVarInfo :=
  [⟨"A_VAR", none, "doc A"⟩, ⟨"B_VAR", some "1", ""⟩]

/-- A concrete prompt-answer function. -/
def demoAnswers : String → String := fun _ => "x"

/-- C10: the completed list is all already-valued variables in file order
followed by all prompted variables in file order — and hence, as the demo
input shows, the original file order is not preserved: `B_VAR` overtakes
`A_VAR` both in the completed list and in the generated `.env` content. -/
theorem C10_prompt_reorders :
    (∀ (envs : List EnvVarInfo) (answers : String → String),
      promptForMissingEnvVars envs answers =
        envs.filter (fun i => i.value.isSome) ++
          (envs.filter (fun i => !i.value.isSome)).map (fillEnvVar answers)) ∧
    demoEnvVars.map EnvVarInfo.name = ["A_VAR", "B_VAR"] ∧
    (promptForMissingEnvVars demoEnvVars demoAnswers).map EnvVarInfo.name =
      ["B_VAR", "A_VAR"] ∧
    generateEnvFileContent (promptForMissingEnvVars demoEnvVars demoAnswers) =
      "# 环境变量配置文件\n# 此文件由项目生成器自动生成\n\nB_VAR=1\n# doc A\nA_VAR=x\n" := by
  refine ⟨?_, by decide, by decide, by decide⟩
  intro envs answers
  rw [promptForMissingEnvVars, splitEnvVars_eq_filter]

end ProjectCreator
